import Mathlib

/-!
Verification of the container-lifecycle request dispatcher in
`pkg/serviceapi/handler_containers.go`.

The handlers are embedded shallowly: the runtime collaborator (libpod) is a
record of per-request behaviours, an HTTP request is its method, path name and
form values, and each handler is a pure function from those to a response
that also records, in order, every runtime call the handler performed.
-/

namespace ServiceAPI

/-- Container lifecycle states, from `libpod/define` (`ContainerStateUnknown`
etc.). Only the variants are needed; the dispatcher compares for equality. -/
inductive ContainerState
  | unknown
  | configured
  | created
  | running
  | stopped
  | paused
  | exited
  deriving DecidableEq, Repr

/-- A call made on the runtime collaborator, recorded in order of invocation:
`LookupContainer`, `con.State()`, `con.Kill(sig)`, `con.Stop()`,
`con.StopWithTimeout(t)`, `con.StopTimeout()`, `con.RestartWithTimeout(t)`,
`con.Wait()`, `runtime.RemoveContainer(con, force, vols)`, `con.Pause()`,
`con.Unpause()`. -/
inductive RCall
  | lookupContainer (name : String)
  | stateQuery
  | kill (sig : Nat)
  | stop
  | stopWithTimeout (t : Nat)
  | stopTimeoutQuery
  | restartWithTimeout (t : Nat)
  | wait
  | removeContainer (force vols : Bool)
  | pause
  | unpause
  deriving DecidableEq, Repr

/-- Response body.

Modelled from the spec: the `Error(w, apiMessage, code, err)` helper is not in
the sources under scrutiny; per the spec (§3 Response Envelope, §7) it writes a
structured error value carrying a human-readable message, the HTTP status code,
and an optional wrapped cause, so `errEnvelope` records the handler's
`apiMessage` argument as the message and the (possibly nil) error argument as
the cause. `empty` is the blank line written on success, `notFoundPage` is
`http.NotFound`, `waitBody` is the JSON `ContainerWaitOKBody`. -/
inductive Body
  | empty
  | errEnvelope (message : String) (cause : Option String)
  | notFoundPage
  | waitBody (statusCode : Int) (message : String)
  deriving DecidableEq, Repr

/-- The HTTP response produced by a handler, together with the ordered trace
of runtime-collaborator calls it performed. -/
structure Response where
  status : Nat
  body : Body
  calls : List RCall
  deriving Repr

/-- The behaviour of the runtime collaborator (libpod) for one request: what
each call the dispatcher may make would return. A Go `error` is an
`Option String` (`some` = non-nil error with that text). -/
structure Runtime where
  /-- `LookupContainer(name)`: `some e` means lookup fails with error `e`. -/
  lookupErr : String → Option String
  /-- `con.State()`. -/
  stateRes : Except String ContainerState
  /-- `con.Kill(sig)`. -/
  killErr : Nat → Option String
  /-- `con.Stop()`. -/
  stopErr : Option String
  /-- `con.StopWithTimeout(t)`. -/
  stopWithTimeoutErr : Nat → Option String
  /-- `con.StopTimeout()`. -/
  stopTimeout : Nat
  /-- `con.RestartWithTimeout(ctx, t)`. -/
  restartErr : Nat → Option String
  /-- Exit code from `con.Wait()` (an `int32` widened to `int`). -/
  waitCode : Int
  /-- Error from `con.Wait()`. -/
  waitErr : Option String
  /-- `runtime.RemoveContainer(ctx, con, force, vols)`. -/
  removeErr : Bool → Bool → Option String
  /-- `con.Pause()`. -/
  pauseErr : Option String
  /-- `con.Unpause()`. -/
  unpauseErr : Option String

/-- An HTTP request as the handlers see it: `r.Method`, the `name` mux
variable, and `r.Form.Get`, which returns `""` for an absent key. -/
structure Request where
  method : String
  name : String
  form : String → String

/-! ### Go standard-library functions used by the handlers -/

/-- Go-style quoting of a string inside a `strconv` error message. -/
def goQuote (s : String) : String := "\"" ++ s ++ "\""

/-- Accumulate decimal digits; `none` on the first non-digit character. -/
def digitsToNatAux : List Char → Nat → Option Nat
  | [], acc => some acc
  | c :: cs, acc =>
      if c.isDigit then digitsToNatAux cs (acc * 10 + (c.toNat - 48)) else none

/-- A non-empty all-digit string as a `Nat`; `none` otherwise. -/
def digitsToNat : List Char → Option Nat
  | [] => none
  | cs => digitsToNatAux cs 0

/-- The sign-and-digits part of `strconv.Atoi`: an optional sign followed by
at least one decimal digit, `none` on anything else. -/
def atoiCore : List Char → Option Int
  | '-' :: rest => (digitsToNat rest).map fun n => -(n : Int)
  | '+' :: rest => (digitsToNat rest).map fun n => (n : Int)
  | cs => (digitsToNat cs).map fun n => (n : Int)

/-- `strconv.Atoi`: an optional sign followed by at least one decimal digit,
rejecting anything else (`invalid syntax`) and values outside the 64-bit
signed range (`value out of range`). -/
def go_atoi (s : String) : Except String Int :=
  match atoiCore s.data with
  | none => .error ("strconv.Atoi: parsing " ++ goQuote s ++ ": invalid syntax")
  | some v =>
      if v < -(2 ^ 63) ∨ 2 ^ 63 - 1 < v then
        .error ("strconv.Atoi: parsing " ++ goQuote s ++ ": value out of range")
      else .ok v

/-- `strconv.ParseBool`: accepts exactly the twelve literal forms. -/
def go_parseBool (s : String) : Except String Bool :=
  if s = "1" ∨ s = "t" ∨ s = "T" ∨ s = "true" ∨ s = "TRUE" ∨ s = "True" then
    .ok true
  else if s = "0" ∨ s = "f" ∨ s = "F" ∨ s = "false" ∨ s = "FALSE" ∨ s = "False" then
    .ok false
  else
    .error ("strconv.ParseBool: parsing " ++ goQuote s ++ ": invalid syntax")

/-- `errors.Wrapf(err, msg)` from `github.com/pkg/errors`: wrapping a nil
error yields nil, otherwise the message is prepended to the cause. -/
def wrapf (e : Option String) (msg : String) : Option String :=
  e.map fun s => msg ++ ": " ++ s

/-- Go's `uint(i)` conversion of a (64-bit) signed integer: two's-complement
reinterpretation, i.e. reduction modulo 2^64. -/
def goUint (i : Int) : Nat := (i % (2 : Int) ^ 64).toNat

/-- The Linux signal-name table of `docker/pkg/signal` (names without the
`SIG` prefix). -/
def signalMap : List (String × Int) :=
  [("ABRT", 6), ("ALRM", 14), ("BUS", 7), ("CHLD", 17), ("CLD", 17),
   ("CONT", 18), ("FPE", 8), ("HUP", 1), ("ILL", 4), ("INT", 2),
   ("IO", 29), ("IOT", 6), ("KILL", 9), ("PIPE", 13), ("POLL", 29),
   ("PROF", 27), ("PWR", 30), ("QUIT", 3), ("SEGV", 11), ("STKFLT", 16),
   ("STOP", 19), ("SYS", 31), ("TERM", 15), ("TRAP", 5), ("TSTP", 20),
   ("TTIN", 21), ("TTOU", 22), ("URG", 23), ("USR1", 10), ("USR2", 12),
   ("VTALRM", 26), ("WINCH", 28), ("XCPU", 24), ("XFSZ", 25)]

/-- `strings.TrimPrefix(strings.ToUpper(s), "SIG")`. -/
def trimSig (s : String) : String :=
  let u := s.toUpper
  if u.startsWith "SIG" then u.drop 3 else u

/-- `signal.ParseSignal` from `docker/pkg/signal`: a numeric string other than
`0` is taken verbatim; otherwise the upper-cased name, with an optional `SIG`
prefix removed, is looked up in the signal table. -/
def parseSignal (raw : String) : Except String Int :=
  match go_atoi raw with
  | .ok s => if s = 0 then .error ("Invalid signal: " ++ raw) else .ok s
  | .error _ =>
      match signalMap.lookup (trimSig raw) with
      | some sig => .ok sig
      | none => .error ("Invalid signal: " ++ raw)

/-- `syscall.SIGKILL` on Linux. -/
def SIGKILL : Int := 9

/-! ### The handlers of `handler_containers.go` -/

/-- `containers`: the collection resource, `http.NotFound` unconditionally. -/
def containers (_rt : Runtime) (_r : Request) : Response :=
  { status := 404, body := .notFoundPage, calls := [] }

/-- `container`: the per-container `/json` resource. Lookup, then only the
DELETE verb is implemented: parse `force`, parse `v`, reject a present `link`,
then `RemoveContainer`; any other verb is a 500. -/
def container (rt : Runtime) (r : Request) : Response :=
  match rt.lookupErr r.name with
  | some e =>
      { status := 404, body := .errEnvelope "no such container" (some e),
        calls := [.lookupContainer r.name] }
  | none =>
      let calls : List RCall := [.lookupContainer r.name]
      if r.method = "DELETE" then
        let forceRes : Except String Bool :=
          if 0 < (r.form "force").length then go_parseBool (r.form "force")
          else .ok false
        match forceRes with
        | .error e =>
            { status := 400,
              body := .errEnvelope "Something went wrong."
                (wrapf (some e)
                  ("Unable to parse parameter 'force': " ++ r.form "force")),
              calls := calls }
        | .ok force =>
            let vRes : Except String Bool :=
              if 0 < (r.form "v").length then go_parseBool (r.form "v")
              else .ok false
            match vRes with
            | .error e =>
                { status := 400,
                  body := .errEnvelope "Something went wrong."
                    (wrapf (some e)
                      ("Unable to parse parameter 'v': " ++ r.form "v")),
                  calls := calls }
            | .ok vols =>
                if 0 < (r.form "link").length then
                  { status := 400,
                    body := .errEnvelope "Something went wrong."
                      (some "DELETE /containers/\x7bid\x7d?link parameter is not supported."),
                    calls := calls }
                else
                  match rt.removeErr force vols with
                  | some e =>
                      { status := 500,
                        body := .errEnvelope "Something went wrong." (some e),
                        calls := calls ++ [.removeContainer force vols] }
                  | none =>
                      { status := 204, body := .empty,
                        calls := calls ++ [.removeContainer force vols] }
      else
        { status := 500,
          body := .errEnvelope "Something went wrong."
            (some (r.method ++ " is not implemented for containers")),
          calls := calls }

/-- `killContainer`: lookup, state query, 409 when already stopped/exited,
then parse `signal` (default `SIGKILL`) and `con.Kill(uint(sig))`. -/
def killContainer (rt : Runtime) (r : Request) : Response :=
  match rt.lookupErr r.name with
  | some e =>
      { status := 404,
        body := .errEnvelope ("No such container: " ++ r.name) (some e),
        calls := [.lookupContainer r.name] }
  | none =>
      let calls : List RCall := [.lookupContainer r.name, .stateQuery]
      match rt.stateRes with
      | .error e =>
          { status := 500, body := .errEnvelope "Something went wrong." (some e),
            calls := calls }
      | .ok state =>
          if state = .stopped ∨ state = .exited then
            { status := 409,
              body := .errEnvelope ("Container " ++ r.name ++ " is not running")
                (some ("Cannot kill container " ++ r.name ++ ", it is not running")),
              calls := calls }
          else
            let sigRes : Except String Int :=
              if 0 < (r.form "signal").length then parseSignal (r.form "signal")
              else .ok SIGKILL
            match sigRes with
            | .error e =>
                { status := 400,
                  body := .errEnvelope "Something went wrong."
                    (wrapf (some e)
                      ("unable to parse signal " ++ r.form "signal")),
                  calls := calls }
            | .ok sig =>
                match rt.killErr (goUint sig) with
                | some e =>
                    { status := 500,
                      body := .errEnvelope "Something went wrong."
                        (wrapf (some e) ("unable to kill container " ++ r.name)),
                      calls := calls ++ [.kill (goUint sig)] }
                | none =>
                    { status := 204, body := .empty,
                      calls := calls ++ [.kill (goUint sig)] }

/-- `waitContainer`: lookup, `con.Wait()`, then a 200 with the JSON
`ContainerWaitOKBody` whose `Error.Message` is empty when `Wait` returned no
error and the error text otherwise. (`json.Marshal` of this struct cannot
fail, so that 500 branch is unreachable and not modelled.) -/
def waitContainer (rt : Runtime) (r : Request) : Response :=
  match rt.lookupErr r.name with
  | some e =>
      { status := 404,
        body := .errEnvelope ("No such container: " ++ r.name) (some e),
        calls := [.lookupContainer r.name] }
  | none =>
      let msg := match rt.waitErr with
        | none => ""
        | some e => e
      { status := 200, body := .waitBody rt.waitCode msg,
        calls := [.lookupContainer r.name, .wait] }

/-- `stopContainer`: lookup, state query, 304 when already stopped/exited,
then `con.StopWithTimeout(uint(t))` when `t` is present (400 on `Atoi`
failure) and `con.Stop()` otherwise. The wrapped errors of the 304 and the
failure branch are `errors.Wrapf` applied to a nil `err`, hence nil. -/
def stopContainer (rt : Runtime) (r : Request) : Response :=
  match rt.lookupErr r.name with
  | some e =>
      { status := 404,
        body := .errEnvelope ("No such container: " ++ r.name) (some e),
        calls := [.lookupContainer r.name] }
  | none =>
      let calls : List RCall := [.lookupContainer r.name, .stateQuery]
      match rt.stateRes with
      | .error e =>
          { status := 500,
            body := .errEnvelope "Something went wrong."
              (wrapf (some e)
                ("unable to get state for " ++ r.name ++ " : %!s(MISSING)")),
            calls := calls }
      | .ok state =>
          if state = .stopped ∨ state = .exited then
            { status := 304,
              body := .errEnvelope "Something went wrong."
                (wrapf none ("container " ++ r.name ++ " is already stopped ")),
              calls := calls }
          else
            let stopRes : Except String (Option String × RCall) :=
              if 0 < (r.form "t").length then
                match go_atoi (r.form "t") with
                | .error e =>
                    .error (("Unable to parse parameter 't': " ++ r.form "t")
                      ++ ": " ++ e)
                | .ok timeout =>
                    .ok (rt.stopWithTimeoutErr (goUint timeout),
                         .stopWithTimeout (goUint timeout))
              else
                .ok (rt.stopErr, .stop)
            match stopRes with
            | .error cause =>
                { status := 400,
                  body := .errEnvelope "Something went wrong." (some cause),
                  calls := calls }
            | .ok (stopError, call) =>
                match stopError with
                | some _ =>
                    { status := 500,
                      body := .errEnvelope "Something went wrong."
                        (wrapf none ("failed to stop " ++ r.name)),
                      calls := calls ++ [call] }
                | none =>
                    { status := 204, body := .empty, calls := calls ++ [call] }

/-- `pauseContainer`: lookup then `con.Pause()` unconditionally. -/
def pauseContainer (rt : Runtime) (r : Request) : Response :=
  match rt.lookupErr r.name with
  | some e =>
      { status := 404,
        body := .errEnvelope ("No such container: " ++ r.name) (some e),
        calls := [.lookupContainer r.name] }
  | none =>
      match rt.pauseErr with
      | some e =>
          { status := 500, body := .errEnvelope "Something went wrong." (some e),
            calls := [.lookupContainer r.name, .pause] }
      | none =>
          { status := 204, body := .empty,
            calls := [.lookupContainer r.name, .pause] }

/-- `unpauseContainer`: lookup then `con.Unpause()` unconditionally. -/
def unpauseContainer (rt : Runtime) (r : Request) : Response :=
  match rt.lookupErr r.name with
  | some e =>
      { status := 404,
        body := .errEnvelope ("No such container: " ++ r.name) (some e),
        calls := [.lookupContainer r.name] }
  | none =>
      match rt.unpauseErr with
      | some e =>
          { status := 500, body := .errEnvelope "Something went wrong." (some e),
            calls := [.lookupContainer r.name, .unpause] }
      | none =>
          { status := 204, body := .empty,
            calls := [.lookupContainer r.name, .unpause] }

/-- `restartContainer`: lookup, state query, 409 when already stopped/exited,
then `con.StopTimeout()` is read unconditionally, overridden by `uint(t)` when
`t` is present (400 on `Atoi` failure), and passed to
`con.RestartWithTimeout`. -/
def restartContainer (rt : Runtime) (r : Request) : Response :=
  match rt.lookupErr r.name with
  | some e =>
      { status := 404,
        body := .errEnvelope ("No such container: " ++ r.name) (some e),
        calls := [.lookupContainer r.name] }
  | none =>
      let calls : List RCall := [.lookupContainer r.name, .stateQuery]
      match rt.stateRes with
      | .error e =>
          { status := 500, body := .errEnvelope "Something went wrong." (some e),
            calls := calls }
      | .ok state =>
          if state = .stopped ∨ state = .exited then
            { status := 409,
              body := .errEnvelope ("Container " ++ r.name ++ " is not running")
                (some ("Container " ++ r.name ++ " is not running")),
              calls := calls }
          else
            let calls := calls ++ [.stopTimeoutQuery]
            let timeoutRes : Except String Nat :=
              if 0 < (r.form "t").length then
                match go_atoi (r.form "t") with
                | .error e =>
                    .error (("Unable to parse parameter 't': " ++ r.form "t")
                      ++ ": " ++ e)
                | .ok t => .ok (goUint t)
              else
                .ok rt.stopTimeout
            match timeoutRes with
            | .error cause =>
                { status := 400,
                  body := .errEnvelope "Something went wrong." (some cause),
                  calls := calls }
            | .ok timeout =>
                match rt.restartErr timeout with
                | some e =>
                    { status := 500,
                      body := .errEnvelope "Something went wrong." (some e),
                      calls := calls ++ [.restartWithTimeout timeout] }
                | none =>
                    { status := 204, body := .empty,
                      calls := calls ++ [.restartWithTimeout timeout] }

/-! ### Predicates on recorded runtime calls -/

/-- Is this a `con.Kill` invocation? -/
def RCall.isKill : RCall → Bool
  | .kill _ => true
  | _ => false

/-- Is this a `con.Stop` or `con.StopWithTimeout` invocation? -/
def RCall.isStopCall : RCall → Bool
  | .stop => true
  | .stopWithTimeout _ => true
  | _ => false

/-- Is this a `con.StopWithTimeout` invocation? -/
def RCall.isStopWithTimeout : RCall → Bool
  | .stopWithTimeout _ => true
  | _ => false

/-- Is this a `con.RestartWithTimeout` invocation? -/
def RCall.isRestart : RCall → Bool
  | .restartWithTimeout _ => true
  | _ => false

/-- Is this a `runtime.RemoveContainer` invocation? -/
def RCall.isRemove : RCall → Bool
  | .removeContainer _ _ => true
  | _ => false

/-! ### Concrete runtimes and requests used to witness the theorems -/

/-- A runtime in which every call succeeds and the container is `Running`. -/
def rtBase : Runtime :=
  { lookupErr := fun _ => none
    stateRes := .ok .running
    killErr := fun _ => none
    stopErr := none
    stopWithTimeoutErr := fun _ => none
    stopTimeout := 10
    restartErr := fun _ => none
    waitCode := 0
    waitErr := none
    removeErr := fun _ _ => none
    pauseErr := none
    unpauseErr := none }

/-- A runtime whose container lookup always fails. -/
def rtLookupFail : Runtime :=
  { rtBase with lookupErr := fun _ => some "no container with matching name or ID" }

/-- A runtime whose container is already `Stopped`. -/
def rtStopped : Runtime := { rtBase with stateRes := .ok .stopped }

/-- A runtime whose container is already `Exited`. -/
def rtExited : Runtime := { rtBase with stateRes := .ok .exited }

/-- A runtime whose `con.Wait()` reports exit code 3 with an error. -/
def rtWaitErr : Runtime := { rtBase with waitCode := 3, waitErr := some "wait failure" }

/-- A request with no query parameters. -/
def reqBase : Request := { method := "POST", name := "c1", form := fun _ => "" }

/-- A request carrying `t=abc`. -/
def reqTAbc : Request :=
  { reqBase with form := fun k => if k = "t" then "abc" else "" }

/-- A request carrying `t=-1`. -/
def reqTNeg : Request :=
  { reqBase with form := fun k => if k = "t" then "-1" else "" }

/-- A request carrying `t=5`. -/
def reqTFive : Request :=
  { reqBase with form := fun k => if k = "t" then "5" else "" }

/-- A request carrying `signal=bogus`, an unrecognized signal name. -/
def reqSigBogus : Request :=
  { reqBase with form := fun k => if k = "signal" then "bogus" else "" }

/-- A DELETE request with no query parameters. -/
def reqDelete : Request := { reqBase with method := "DELETE" }

/-- A DELETE request carrying `link=false` and `force=true`. -/
def reqDeleteLink : Request :=
  { reqBase with
    method := "DELETE"
    form := fun k => if k = "link" then "false" else if k = "force" then "true" else "" }

/-- A GET request with no query parameters. -/
def reqGet : Request := { reqBase with method := "GET" }

/-! ### Claims -/

/-- C1: when the runtime fails to resolve a reference, every operation (kill,
stop, restart, pause, unpause, wait, remove/inspect) returns HTTP 404 having
performed no runtime call beyond the lookup; the envelope message is
`"No such container: <reference>"` for every operation except the `/json`
(inspect/remove) path, whose message is `"no such container"`. -/
theorem notFound_all_ops (rt : Runtime) (r : Request) (e : String)
    (h : rt.lookupErr r.name = some e) :
    (killContainer rt r).status = 404 ∧
    (killContainer rt r).body
      = .errEnvelope ("No such container: " ++ r.name) (some e) ∧
    (killContainer rt r).calls = [.lookupContainer r.name] ∧
    (stopContainer rt r).status = 404 ∧
    (stopContainer rt r).body
      = .errEnvelope ("No such container: " ++ r.name) (some e) ∧
    (stopContainer rt r).calls = [.lookupContainer r.name] ∧
    (restartContainer rt r).status = 404 ∧
    (restartContainer rt r).body
      = .errEnvelope ("No such container: " ++ r.name) (some e) ∧
    (restartContainer rt r).calls = [.lookupContainer r.name] ∧
    (pauseContainer rt r).status = 404 ∧
    (pauseContainer rt r).body
      = .errEnvelope ("No such container: " ++ r.name) (some e) ∧
    (pauseContainer rt r).calls = [.lookupContainer r.name] ∧
    (unpauseContainer rt r).status = 404 ∧
    (unpauseContainer rt r).body
      = .errEnvelope ("No such container: " ++ r.name) (some e) ∧
    (unpauseContainer rt r).calls = [.lookupContainer r.name] ∧
    (waitContainer rt r).status = 404 ∧
    (waitContainer rt r).body
      = .errEnvelope ("No such container: " ++ r.name) (some e) ∧
    (waitContainer rt r).calls = [.lookupContainer r.name] ∧
    (container rt r).status = 404 ∧
    (container rt r).body = .errEnvelope "no such container" (some e) ∧
    (container rt r).calls = [.lookupContainer r.name] := by
  simp [killContainer, stopContainer, restartContainer, pauseContainer,
    unpauseContainer, waitContainer, container, h]

/-- C1 witness: the unresolved-reference hypothesis holds for a concrete
runtime and request, and the kill path indeed answers 404. -/
theorem notFound_all_ops_witness :
    rtLookupFail.lookupErr reqBase.name
      = some "no container with matching name or ID" ∧
    (killContainer rtLookupFail reqBase).status = 404 :=
  ⟨rfl, (notFound_all_ops rtLookupFail reqBase _ rfl).1⟩

/-- C2: on a container whose queried state is `Stopped` or `Exited`, kill and
restart answer HTTP 409 Conflict and the trace contains no `con.Kill` and no
`con.RestartWithTimeout` invocation. -/
theorem kill_restart_conflict_when_stopped (rt : Runtime) (r : Request)
    (st : ContainerState) (hl : rt.lookupErr r.name = none)
    (hs : rt.stateRes = .ok st) (hst : st = .stopped ∨ st = .exited) :
    (killContainer rt r).status = 409 ∧
    ((killContainer rt r).calls.all fun c => !c.isKill) = true ∧
    (restartContainer rt r).status = 409 ∧
    ((restartContainer rt r).calls.all fun c => !c.isRestart) = true := by
  rcases hst with h | h <;> subst h <;>
    simp [killContainer, restartContainer, hl, hs, RCall.isKill, RCall.isRestart]

/-- C2 witness: a stopped container concretely yields 409 on kill. -/
theorem kill_restart_conflict_when_stopped_witness :
    rtStopped.lookupErr reqBase.name = none ∧
    rtStopped.stateRes = .ok .stopped ∧
    (killContainer rtStopped reqBase).status = 409 ∧
    (restartContainer rtStopped reqBase).status = 409 :=
  ⟨rfl, rfl,
   (kill_restart_conflict_when_stopped rtStopped reqBase .stopped rfl rfl
      (Or.inl rfl)).1,
   (kill_restart_conflict_when_stopped rtStopped reqBase .stopped rfl rfl
      (Or.inl rfl)).2.2.1⟩

/-- C3: on a container whose queried state is `Stopped` or `Exited`, stop
answers HTTP 304 Not Modified and the trace contains neither `con.Stop` nor
`con.StopWithTimeout`. -/
theorem stop_not_modified_when_stopped (rt : Runtime) (r : Request)
    (st : ContainerState) (hl : rt.lookupErr r.name = none)
    (hs : rt.stateRes = .ok st) (hst : st = .stopped ∨ st = .exited) :
    (stopContainer rt r).status = 304 ∧
    ((stopContainer rt r).calls.all fun c => !c.isStopCall) = true := by
  rcases hst with h | h <;> subst h <;>
    simp [stopContainer, hl, hs, RCall.isStopCall]

/-- C3 witness: an exited container concretely yields 304 on stop. -/
theorem stop_not_modified_when_stopped_witness :
    rtExited.lookupErr reqBase.name = none ∧
    rtExited.stateRes = .ok .exited ∧
    (stopContainer rtExited reqBase).status = 304 :=
  ⟨rfl, rfl,
   (stop_not_modified_when_stopped rtExited reqBase .exited rfl rfl
      (Or.inr rfl)).1⟩

/-- A value accepted by `strconv.Atoi` lies in the signed 64-bit range. -/
theorem go_atoi_ok_range (s : String) (v : Int) (h : go_atoi s = .ok v) :
    -(2 ^ 63) ≤ v ∧ v ≤ 2 ^ 63 - 1 := by
  unfold go_atoi at h
  cases hc : atoiCore s.data with
  | none => rw [hc] at h; cases h
  | some w =>
      rw [hc] at h
      dsimp only at h
      by_cases hcond : w < -(2 ^ 63) ∨ 2 ^ 63 - 1 < w
      · rw [if_pos hcond] at h; cases h
      · rw [if_neg hcond] at h
        injection h with hwv
        subst hwv
        push_neg at hcond
        omega

/-- `uint(t)` is the identity on values in `[0, 2^64)`. -/
theorem goUint_of_nonneg (t : Int) (h0 : 0 ≤ t) (h1 : t < 2 ^ 64) :
    (goUint t : Int) = t := by
  unfold goUint
  rw [Int.emod_eq_of_lt h0 (by omega)]
  exact Int.toNat_of_nonneg h0

/-- C4 counterexample: the claim quantifies over every state, but the state
gate precedes `t` parsing, so stop with `t=abc` on a Stopped container
answers 304 Not Modified, not 400. -/
theorem stop_bad_t_counterexample :
    reqTAbc.form "t" = "abc" ∧
    (stopContainer rtStopped reqTAbc).status = 304 ∧
    ¬(stopContainer rtStopped reqTAbc).status = 400 := by
  decide

/-- C4 (amended): for every container whose state query succeeds with a state
outside {Stopped, Exited}, a stop or restart request whose `t` value fails
integer parsing (such as `t=abc`) answers HTTP 400 Bad Request, and the trace
contains no `StopWithTimeout` and no `RestartWithTimeout` invocation. -/
theorem stop_restart_unparseable_t (rt : Runtime) (r : Request)
    (st : ContainerState) (pe : String) (hl : rt.lookupErr r.name = none)
    (hs : rt.stateRes = .ok st) (hrun : ¬(st = .stopped ∨ st = .exited))
    (hlen : 0 < (r.form "t").length)
    (hp : go_atoi (r.form "t") = .error pe) :
    (stopContainer rt r).status = 400 ∧
    ((stopContainer rt r).calls.all fun c => !c.isStopWithTimeout) = true ∧
    (restartContainer rt r).status = 400 ∧
    ((restartContainer rt r).calls.all fun c => !c.isRestart) = true := by
  simp [stopContainer, restartContainer, hl, hs, hrun, hlen, hp,
    RCall.isStopWithTimeout, RCall.isRestart]

/-- C4 witness: a running container with `t=abc` is concretely rejected with
400 on both stop and restart. -/
theorem stop_restart_unparseable_t_witness :
    go_atoi (reqTAbc.form "t")
      = .error "strconv.Atoi: parsing \"abc\": invalid syntax" ∧
    (stopContainer rtBase reqTAbc).status = 400 ∧
    (restartContainer rtBase reqTAbc).status = 400 :=
  ⟨rfl,
   (stop_restart_unparseable_t rtBase reqTAbc .running _ rfl rfl (by decide)
      (by decide) rfl).1,
   (stop_restart_unparseable_t rtBase reqTAbc .running _ rfl rfl (by decide)
      (by decide) rfl).2.2.1⟩

/-- C5 counterexample: `t=-1` is not rejected: `strconv.Atoi` accepts it, the
stop handler answers 204, and `uint(-1)` wraps so `StopWithTimeout` receives
2^64 - 1 seconds. -/
theorem stop_negative_t_counterexample :
    reqTNeg.form "t" = "-1" ∧
    (stopContainer rtBase reqTNeg).status = 204 ∧
    ¬(stopContainer rtBase reqTNeg).status = 400 ∧
    (stopContainer rtBase reqTNeg).calls
      = [.lookupContainer "c1", .stateQuery, .stopWithTimeout (2 ^ 64 - 1)] := by
  decide

/-- C5 (amended): `t` is parsed by `strconv.Atoi` as a signed integer. On a
container past the state gate with `t` present: a parse failure answers 400
and no stop/restart call is made; a successfully parsed value `t` is
converted by `uint(t)` (reduction mod 2^64) before reaching the runtime call,
so every non-negative parsed value reaches the call exactly while a negative
value wraps around instead of being rejected. -/
theorem t_param_signed_parsing (rt : Runtime) (r : Request)
    (st : ContainerState) (hl : rt.lookupErr r.name = none)
    (hs : rt.stateRes = .ok st) (hrun : ¬(st = .stopped ∨ st = .exited))
    (hlen : 0 < (r.form "t").length) :
    (∀ pe, go_atoi (r.form "t") = .error pe →
      (stopContainer rt r).status = 400 ∧
      ((stopContainer rt r).calls.all fun c => !c.isStopCall) = true ∧
      (restartContainer rt r).status = 400 ∧
      ((restartContainer rt r).calls.all fun c => !c.isRestart) = true) ∧
    (∀ t, go_atoi (r.form "t") = .ok t →
      RCall.stopWithTimeout (goUint t) ∈ (stopContainer rt r).calls ∧
      RCall.restartWithTimeout (goUint t) ∈ (restartContainer rt r).calls ∧
      (0 ≤ t → (goUint t : Int) = t)) := by
  constructor
  · intro pe hp
    simp [stopContainer, restartContainer, hl, hs, hrun, hlen, hp,
      RCall.isStopCall, RCall.isRestart]
  · intro t hp
    refine ⟨?_, ?_, ?_⟩
    · cases h2 : rt.stopWithTimeoutErr (goUint t) <;>
        simp [stopContainer, hl, hs, hrun, hlen, hp, h2]
    · cases h2 : rt.restartErr (goUint t) <;>
        simp [restartContainer, hl, hs, hrun, hlen, hp, h2]
    · intro h0
      have hr := go_atoi_ok_range _ _ hp
      exact goUint_of_nonneg t h0 (by omega)

/-- C5 witness: `t=5` on a running container concretely reaches
`StopWithTimeout` with 5 seconds. -/
theorem t_param_signed_parsing_witness :
    0 < (reqTFive.form "t").length ∧
    go_atoi (reqTFive.form "t") = .ok 5 ∧
    RCall.stopWithTimeout (goUint 5) ∈ (stopContainer rtBase reqTFive).calls ∧
    goUint 5 = 5 :=
  ⟨by decide, rfl,
   ((t_param_signed_parsing rtBase reqTFive .running rfl rfl (by decide)
      (by decide)).2 5 rfl).1,
   by decide⟩

/-- C6: a DELETE on the per-container `/json` resource of a resolved
container with the `link` parameter present answers HTTP 400 — whatever the
`link` value and whatever the `force`/`v` values, well-formed or not — and
`RemoveContainer` is never invoked. -/
theorem remove_link_always_rejected (rt : Runtime) (r : Request)
    (hl : rt.lookupErr r.name = none) (hm : r.method = "DELETE")
    (hlink : 0 < (r.form "link").length) :
    (container rt r).status = 400 ∧
    ((container rt r).calls.all fun c => !c.isRemove) = true := by
  cases hF : (if 0 < (r.form "force").length then go_parseBool (r.form "force")
      else Except.ok false) with
  | error e => simp [container, hl, hm, hF, RCall.isRemove]
  | ok force =>
      cases hV : (if 0 < (r.form "v").length then go_parseBool (r.form "v")
          else Except.ok false) with
      | error e => simp [container, hl, hm, hF, hV, RCall.isRemove]
      | ok vols => simp [container, hl, hm, hF, hV, hlink, RCall.isRemove]

/-- C6 witness: `DELETE` with `link=false&force=true` on an existing
container is concretely rejected with 400. -/
theorem remove_link_always_rejected_witness :
    rtBase.lookupErr reqDeleteLink.name = none ∧
    reqDeleteLink.method = "DELETE" ∧
    0 < (reqDeleteLink.form "link").length ∧
    (container rtBase reqDeleteLink).status = 400 :=
  ⟨rfl, rfl, by decide,
   (remove_link_always_rejected rtBase reqDeleteLink rfl rfl (by decide)).1⟩

/-- C7: wait on a resolved container answers HTTP 200 with body
`{StatusCode: <exit code from Wait>, Error: {Message: m}}` where `m` is empty
when `Wait` returned no error and is the runtime-reported error text
verbatim otherwise (hence non-empty exactly when that text is). -/
theorem waitContainer_response (rt : Runtime) (r : Request)
    (hl : rt.lookupErr r.name = none) :
    (waitContainer rt r).status = 200 ∧
    (rt.waitErr = none → (waitContainer rt r).body = .waitBody rt.waitCode "") ∧
    (∀ s, rt.waitErr = some s →
      (waitContainer rt r).body = .waitBody rt.waitCode s) := by
  refine ⟨?_, ?_, ?_⟩
  · simp [waitContainer, hl]
  · intro hw; simp [waitContainer, hl, hw]
  · intro s hw; simp [waitContainer, hl, hw]

/-- C7 witness: a wait that reports exit code 3 with error text
`"wait failure"` concretely yields 200 and that body. -/
theorem waitContainer_response_witness :
    rtWaitErr.lookupErr reqBase.name = none ∧
    (waitContainer rtWaitErr reqBase).status = 200 ∧
    (waitContainer rtWaitErr reqBase).body = .waitBody 3 "wait failure" :=
  ⟨rfl, (waitContainer_response rtWaitErr reqBase rfl).1,
   (waitContainer_response rtWaitErr reqBase rfl).2.2 "wait failure" rfl⟩

/-- C8: with `t` absent, stop invokes the zero-argument `con.Stop()` (never
`StopWithTimeout`) and restart invokes `con.RestartWithTimeout` with the
value read from `con.StopTimeout()`; when that call succeeds the response is
HTTP 204. -/
theorem stop_restart_default_timeout (rt : Runtime) (r : Request)
    (st : ContainerState) (hl : rt.lookupErr r.name = none)
    (hs : rt.stateRes = .ok st) (hrun : ¬(st = .stopped ∨ st = .exited))
    (ht : (r.form "t").length = 0)
    (hstop : rt.stopErr = none)
    (hrestart : rt.restartErr rt.stopTimeout = none) :
    (stopContainer rt r).status = 204 ∧
    RCall.stop ∈ (stopContainer rt r).calls ∧
    ((stopContainer rt r).calls.all fun c => !c.isStopWithTimeout) = true ∧
    (restartContainer rt r).status = 204 ∧
    RCall.stopTimeoutQuery ∈ (restartContainer rt r).calls ∧
    RCall.restartWithTimeout rt.stopTimeout ∈ (restartContainer rt r).calls := by
  simp [stopContainer, restartContainer, hl, hs, hrun, ht, hstop, hrestart,
    RCall.isStopWithTimeout]

/-- C8 witness: a running container stopped and restarted without `t`
concretely answers 204 using `Stop()` and `RestartWithTimeout(10)`. -/
theorem stop_restart_default_timeout_witness :
    (reqBase.form "t").length = 0 ∧
    (stopContainer rtBase reqBase).status = 204 ∧
    RCall.stop ∈ (stopContainer rtBase reqBase).calls ∧
    (restartContainer rtBase reqBase).status = 204 ∧
    RCall.restartWithTimeout rtBase.stopTimeout
      ∈ (restartContainer rtBase reqBase).calls := by
  have H := stop_restart_default_timeout rtBase reqBase .running rfl rfl
    (by decide) rfl rfl rfl
  exact ⟨rfl, H.1, H.2.1, H.2.2.2.1, H.2.2.2.2.2⟩

/-- C9: on the per-container `/json` resource of a resolved container, any
verb other than DELETE answers HTTP 500, the error carried is
`"<verb> is not implemented for containers"`, and no runtime call beyond the
lookup is performed. -/
theorem json_non_delete_not_implemented (rt : Runtime) (r : Request)
    (hl : rt.lookupErr r.name = none) (hm : r.method ≠ "DELETE") :
    (container rt r).status = 500 ∧
    (container rt r).body = .errEnvelope "Something went wrong."
      (some (r.method ++ " is not implemented for containers")) ∧
    (container rt r).calls = [.lookupContainer r.name] := by
  simp [container, hl, hm]

/-- C9 witness: a GET on the `/json` resource concretely answers 500 carrying
`"GET is not implemented for containers"`. -/
theorem json_non_delete_not_implemented_witness :
    rtBase.lookupErr reqGet.name = none ∧
    reqGet.method ≠ "DELETE" ∧
    (container rtBase reqGet).status = 500 ∧
    (container rtBase reqGet).body = .errEnvelope "Something went wrong."
      (some (reqGet.method ++ " is not implemented for containers")) := by
  have H := json_non_delete_not_implemented rtBase reqGet rfl (by decide)
  exact ⟨rfl, by decide, H.1, H.2.1⟩

/-- C10: in the kill handler the state gate precedes signal parsing: a
container queried as Stopped or Exited answers 409 for every request,
whatever the `signal` value (so an invalid signal there never yields 400);
and on a container past the gate with `signal` absent or empty, `con.Kill`
receives SIGKILL (9). -/
theorem kill_gate_before_signal_and_default (rt : Runtime) (r : Request)
    (st : ContainerState) (hl : rt.lookupErr r.name = none)
    (hs : rt.stateRes = .ok st) :
    ((st = .stopped ∨ st = .exited) →
      (killContainer rt r).status = 409 ∧ (killContainer rt r).status ≠ 400) ∧
    (¬(st = .stopped ∨ st = .exited) → (r.form "signal").length = 0 →
      RCall.kill 9 ∈ (killContainer rt r).calls) := by
  constructor
  · intro hst
    rcases hst with h | h <;> subst h <;> simp [killContainer, hl, hs]
  · intro hrun hsig
    have h9 : goUint SIGKILL = 9 := by decide
    cases h2 : rt.killErr 9 <;>
      simp [killContainer, hl, hs, hrun, hsig, h9, h2]

/-- C10 witness: `signal=bogus` on a stopped container concretely answers
409, and a running container killed with no signal receives 9. -/
theorem kill_gate_before_signal_and_default_witness :
    rtStopped.lookupErr reqSigBogus.name = none ∧
    rtStopped.stateRes = .ok .stopped ∧
    (killContainer rtStopped reqSigBogus).status = 409 ∧
    RCall.kill 9 ∈ (killContainer rtBase reqBase).calls := by
  have H1 := (kill_gate_before_signal_and_default rtStopped reqSigBogus
    .stopped rfl rfl).1 (Or.inl rfl)
  have H2 := (kill_gate_before_signal_and_default rtBase reqBase
    .running rfl rfl).2 (by decide) rfl
  exact ⟨rfl, rfl, H1.1, H2⟩

end ServiceAPI
